import Mathlib

/-!
Shallow embedding of `src/video_core/renderer_vulkan/vk_scheduler.cpp`
(namespace `Vulkan`, class `Scheduler`): the render-pass state machine,
the tick-based submission protocol and the pending-operation queue.

The scheduler's header (`vk_scheduler.h`), the master semaphore and the
command pool are not part of the supplied sources; the definitions that
stand in for them are modelled from the specification and marked as such.
Ticks are `u64` in the source; they are modelled as `Nat` (the counter
only ever advances by one per submission, so wrap-around is immaterial
to the properties considered here).
-/

namespace Vulkan

/-! Vulkan enumeration constants, with their numeric bit values. -/

def ACCESS_SHADER_READ : Nat := 0x20
def ACCESS_SHADER_WRITE : Nat := 0x40
def ACCESS_COLOR_ATTACHMENT_WRITE : Nat := 0x100
def ACCESS_DEPTH_STENCIL_ATTACHMENT_WRITE : Nat := 0x400
def STAGE_FRAGMENT_SHADER : Nat := 0x80
def STAGE_EARLY_FRAGMENT_TESTS : Nat := 0x100
def STAGE_LATE_FRAGMENT_TESTS : Nat := 0x200
def STAGE_COLOR_ATTACHMENT_OUTPUT : Nat := 0x400
def STAGE_ALL_COMMANDS : Nat := 0x10000
def STAGE_NONE : Nat := 0
def ASPECT_COLOR : Nat := 1
def ASPECT_DEPTH : Nat := 2
def ASPECT_STENCIL : Nat := 4
def ASPECT_NONE : Nat := 0
def LAYOUT_COLOR_ATTACHMENT_OPTIMAL : Nat := 2
def DEPENDENCY_BY_REGION : Nat := 1
def QUEUE_FAMILY_IGNORED : Nat := 0xFFFFFFFF
def REMAINING_MIP_LEVELS : Nat := 0xFFFFFFFF
def REMAINING_ARRAY_LAYERS : Nat := 0xFFFFFFFF

/-- Handle of the master semaphore's timeline semaphore
(`master_semaphore.Handle()`); an opaque device object, one per scheduler. -/
def timelineHandle : Nat := 0

/-- Modelled from the spec: attachment descriptor (`vk::RenderingAttachmentInfo`);
only the image layout is observable in this unit (the depth barrier reads
`depth_attachment.imageLayout`). -/
structure AttachmentInfo where
  imageLayout : Nat
  deriving DecidableEq, Repr

/-- Modelled from the spec: the externally defined `RenderState` value type
(width, height, color attachment descriptors + backing images, optional
depth/stencil descriptor + backing image) with structural equality. -/
structure RenderState where
  width : Nat
  height : Nat
  num_color_attachments : Nat
  color_attachments : List AttachmentInfo
  color_images : List Nat
  has_depth : Bool
  has_stencil : Bool
  depth_attachment : AttachmentInfo
  depth_image : Nat
  deriving DecidableEq, Repr

/-- Modelled from the spec: the externally defined `SubmitInfo` accumulator of
wait semaphore+value pairs, signal semaphore+value pairs and an optional fence. -/
structure SubmitInfo where
  wait_semas : List Nat
  wait_ticks : List Nat
  signal_semas : List Nat
  signal_ticks : List Nat
  fence : Option Nat
  deriving DecidableEq, Repr

/-- Modelled from the spec: `SubmitInfo::AddSignal` appends one
semaphore+value signal pair. -/
def SubmitInfo.AddSignal (info : SubmitInfo) (sema : Nat) (value : Nat) : SubmitInfo :=
  { info with
    signal_semas := info.signal_semas ++ [sema]
    signal_ticks := info.signal_ticks ++ [value] }

/-- The empty `SubmitInfo info{}` constructed by `Finish` and `Wait`. -/
def emptySubmitInfo : SubmitInfo := ⟨[], [], [], [], none⟩

/-- `vk::ImageMemoryBarrier` as constructed by `Scheduler::EndRendering`
(access masks, layouts, queue families, image handle, subresource range). -/
structure ImageMemoryBarrier where
  srcAccessMask : Nat
  dstAccessMask : Nat
  oldLayout : Nat
  newLayout : Nat
  srcQueueFamilyIndex : Nat
  dstQueueFamilyIndex : Nat
  image : Nat
  aspectMask : Nat
  baseMipLevel : Nat
  levelCount : Nat
  baseArrayLayer : Nat
  layerCount : Nat
  deriving DecidableEq, Repr

/-- The `vk::SubmitInfo` handed to `queue.submit` (with the chained
`vk::TimelineSemaphoreSubmitInfo` values folded in). `waitDstStageMask` is
the array pointed to by `pWaitDstStageMask`. -/
structure VkSubmitInfo where
  waitSemaphoreCount : Nat
  waitSemas : List Nat
  waitDstStageMask : List Nat
  commandBufferCount : Nat
  signalSemaphoreCount : Nat
  signalSemas : List Nat
  waitSemaphoreValues : List Nat
  signalSemaphoreValues : List Nat
  deriving DecidableEq, Repr

/-- The fixed two-element `wait_stage_masks` array of `SubmitExecution`. -/
def wait_stage_masks : List Nat := [STAGE_ALL_COMMANDS, STAGE_COLOR_ATTACHMENT_OUTPUT]

/-- Builds the `vk::SubmitInfo` (plus timeline values) exactly as
`Scheduler::SubmitExecution` does from the accumulated `SubmitInfo`. -/
def mkVkSubmitInfo (info : SubmitInfo) : VkSubmitInfo :=
  { waitSemaphoreCount := info.wait_semas.length
    waitSemas := info.wait_semas
    waitDstStageMask := wait_stage_masks
    commandBufferCount := 1
    signalSemaphoreCount := info.signal_semas.length
    signalSemas := info.signal_semas
    waitSemaphoreValues := info.wait_ticks
    signalSemaphoreValues := info.signal_ticks }

/-- Vulkan validity: `pWaitDstStageMask` must point to an array of
`waitSemaphoreCount` entries, so the fixed backing array must be at least
that long. -/
def wellFormedWaitStages (si : VkSubmitInfo) : Prop :=
  si.waitSemaphoreCount ≤ si.waitDstStageMask.length

instance (si : VkSubmitInfo) : Decidable (wellFormedWaitStages si) := by
  unfold wellFormedWaitStages; infer_instance

/-- Modelled from the spec: the Tick Authority (`MasterSemaphore`).
`current_tick` is the next-assignable tick (`CurrentTick()` / `peekNext`),
`gpu_tick` the last tick confirmed complete (`KnownGpuTick()` / `completed`).
Initial values: first assigned tick is 1, nothing completed yet. -/
structure MasterSemaphore where
  current_tick : Nat
  gpu_tick : Nat
  deriving DecidableEq, Repr

/-- Modelled from the spec: `allocate()` / `NextTick()` atomically reserves
and returns the tick to be signaled by the submission being built. Returns
the reserved tick together with the updated authority. -/
def MasterSemaphore.NextTick (m : MasterSemaphore) : Nat × MasterSemaphore :=
  (m.current_tick, { m with current_tick := m.current_tick + 1 })

/-- Modelled from the spec: `refresh()` polls the device-side counter
(`device_value`, the value the timeline semaphore has signaled) and advances
`completed()` if the device has progressed; never regresses. -/
def MasterSemaphore.Refresh (m : MasterSemaphore) (device_value : Nat) : MasterSemaphore :=
  { m with gpu_tick := max m.gpu_tick device_value }

/-- Modelled from the spec: Tick Authority `wait(tick)` blocks until
`completed() >= tick`. A tick below `current_tick` has been assigned and
submitted, so the device eventually signals it and the wait returns
(`some`, with `completed()` advanced); waiting on a tick nothing has been
submitted for never returns (`none` = deadlock). -/
def MasterSemaphore.Wait (m : MasterSemaphore) (tick : Nat) : Option MasterSemaphore :=
  if tick ≤ m.gpu_tick then some m
  else if tick < m.current_tick then some { m with gpu_tick := tick } else none

/-- A deferred host-side operation: `pending_ops` entries, with the target
tick field named `gpu_tick` as in the source and the callback abstracted to
an identifier. -/
structure PendingOp where
  gpu_tick : Nat
  callback : Nat
  deriving DecidableEq, Repr

/-- Device-side commands recorded into or submitted from the current command
buffer, in order: the observable effect trace of the scheduler. -/
inductive Event where
  | beginPass (rs : RenderState)
  | endPass
  | barrierBatch (barriers : List ImageMemoryBarrier)
      (srcStages dstStages deps : Nat)
  | endBuffer
  | submit (si : VkSubmitInfo) (fence : Option Nat)
  | beginBuffer
  deriving DecidableEq, Repr

/-- Modelled from the spec: the device/instance capabilities consumed here:
an optional profiler context, the optional NV checkpoint capability, and the
checkpoint data `(stage, marker)` the queue would report after a loss. -/
structure Instance where
  has_profiler : Bool
  has_nv_checkpoints : Bool
  checkpoints : List (Nat × Nat)
  deriving DecidableEq, Repr

/-- Device behaviour during one submission: whether `queue.submit` throws
`vk::DeviceLostError`, and the timeline value the semaphore has signaled by
the time `Refresh` polls it. -/
structure DevBehavior where
  lost : Bool
  refresh_val : Nat
  deriving DecidableEq, Repr

/-- The scheduler state: render-pass state machine flag and state, the tick
authority, the pending-operation queue, whether the current command buffer
has begin-recording issued and not yet ended, a sticky flag recording that a
barrier push ever exceeded the static capacity, the recorded event trace and
the callbacks executed so far (in order). -/
structure Scheduler where
  is_rendering : Bool
  render_state : RenderState
  sem : MasterSemaphore
  pending_ops : List PendingOp
  cmdbuf_open : Bool
  overflowed : Bool
  trace : List Event
  executed : List Nat
  deriving DecidableEq, Repr

/-- `Scheduler::CurrentTick()` (header, modelled from the spec): the
`completed()/peekNext()` baseline captured by `Finish`, i.e. the tick the
next submission will be assigned. -/
def Scheduler.CurrentTick (s : Scheduler) : Nat := s.sem.current_tick

/-- `Scheduler::IsFree(tick)` (header, modelled from the spec): the tick is
at most `completed()`. -/
def Scheduler.IsFree (s : Scheduler) (tick : Nat) : Bool :=
  decide (tick ≤ s.sem.gpu_tick)

/-- The color-attachment barrier pushed once per color attachment. -/
def colorBarrier (image : Nat) : ImageMemoryBarrier :=
  { srcAccessMask := ACCESS_COLOR_ATTACHMENT_WRITE
    dstAccessMask := ACCESS_SHADER_READ ||| ACCESS_SHADER_WRITE
    oldLayout := LAYOUT_COLOR_ATTACHMENT_OPTIMAL
    newLayout := LAYOUT_COLOR_ATTACHMENT_OPTIMAL
    srcQueueFamilyIndex := QUEUE_FAMILY_IGNORED
    dstQueueFamilyIndex := QUEUE_FAMILY_IGNORED
    image := image
    aspectMask := ASPECT_COLOR
    baseMipLevel := 0
    levelCount := REMAINING_MIP_LEVELS
    baseArrayLayer := 0
    layerCount := REMAINING_ARRAY_LAYERS }

/-- The depth/stencil barrier pushed when the state has a depth attachment. -/
def depthBarrier (rs : RenderState) : ImageMemoryBarrier :=
  { srcAccessMask := ACCESS_DEPTH_STENCIL_ATTACHMENT_WRITE
    dstAccessMask := ACCESS_SHADER_READ ||| ACCESS_SHADER_WRITE
    oldLayout := rs.depth_attachment.imageLayout
    newLayout := rs.depth_attachment.imageLayout
    srcQueueFamilyIndex := QUEUE_FAMILY_IGNORED
    dstQueueFamilyIndex := QUEUE_FAMILY_IGNORED
    image := rs.depth_image
    aspectMask := ASPECT_DEPTH ||| (if rs.has_stencil then ASPECT_STENCIL else ASPECT_NONE)
    baseMipLevel := 0
    levelCount := REMAINING_MIP_LEVELS
    baseArrayLayer := 0
    layerCount := REMAINING_ARRAY_LAYERS }

/-- 1 when the state has a depth attachment, else 0. -/
def depthBit (rs : RenderState) : Nat := if rs.has_depth then 1 else 0

/-- `boost::container::static_vector<vk::ImageMemoryBarrier, 9>::push_back`:
appends while below capacity 9; past capacity the element is lost and the
overflow flag (modelling the out-of-capacity branch, undefined behaviour in
the source) is set. -/
def pushBarrier (acc : List ImageMemoryBarrier × Bool) (b : ImageMemoryBarrier) :
    List ImageMemoryBarrier × Bool :=
  if acc.1.length < 9 then (acc.1 ++ [b], acc.2) else (acc.1, true)

/-- The barriers `EndRendering` pushes, in push order: one `colorBarrier`
per color attachment (indexing `color_images`), then the `depthBarrier`
when the state has a depth attachment. -/
def barrierSeq (rs : RenderState) : List ImageMemoryBarrier :=
  (List.range rs.num_color_attachments).map (fun i => colorBarrier (rs.color_images.getD i 0))
    ++ (if rs.has_depth then [depthBarrier rs] else [])

/-- The contents of the `static_vector` after all `push_back` calls of
`EndRendering`, with the overflow flag. -/
def buildBarriers (rs : RenderState) : List ImageMemoryBarrier × Bool :=
  (barrierSeq rs).foldl pushBarrier ([], false)

/-- The source-stage mask of the batched `pipelineBarrier` call:
color-attachment-output, plus the late/early fragment-test stages when the
state has a depth attachment. -/
def srcStagesOf (rs : RenderState) : Nat :=
  STAGE_COLOR_ATTACHMENT_OUTPUT |||
    (if rs.has_depth then STAGE_LATE_FRAGMENT_TESTS ||| STAGE_EARLY_FRAGMENT_TESTS
     else STAGE_NONE)

/-- The commands `EndRendering` records when a pass is open: the
`endRendering` command, then — only when the barrier vector is non-empty —
the single batched `pipelineBarrier` call over all of it. -/
def endDelta (rs : RenderState) : List Event :=
  Event.endPass ::
    (if (buildBarriers rs).1.isEmpty then []
     else [Event.barrierBatch (buildBarriers rs).1 (srcStagesOf rs)
       STAGE_FRAGMENT_SHADER DEPENDENCY_BY_REGION])

/-- `Scheduler::EndRendering`: no-op unless rendering; otherwise clear the
flag, record `endRendering`, build the per-attachment barriers and, when
non-empty, issue them as one batched `pipelineBarrier` call (`endDelta`). -/
def Scheduler.EndRendering (s : Scheduler) : Scheduler :=
  if s.is_rendering = false then s
  else
    { s with
      is_rendering := false
      overflowed := s.overflowed || (buildBarriers s.render_state).2
      trace := s.trace ++ endDelta s.render_state }

/-- `Scheduler::BeginRendering`: no-op when already rendering over an equal
state; otherwise end the current pass, adopt the new state and record
`beginRendering`. -/
def Scheduler.BeginRendering (s : Scheduler) (new_state : RenderState) : Scheduler :=
  if s.is_rendering = true ∧ s.render_state = new_state then s
  else
    let s1 := s.EndRendering
    { s1 with
      is_rendering := true
      render_state := new_state
      trace := s1.trace ++ [Event.beginPass new_state] }

/-- `Scheduler::AllocateWorkerCommandBuffers`: commit a fresh buffer from
the pool and issue begin-recording on it (one-time-submit). -/
def Scheduler.AllocateWorkerCommandBuffers (s : Scheduler) : Scheduler :=
  { s with cmdbuf_open := true, trace := s.trace ++ [Event.beginBuffer] }

/-- The `while (!pending_ops.empty() && IsFree(pending_ops.front().gpu_tick))`
drain loop: returns the callbacks executed (in pop order) and the remaining
queue. -/
def drainOps (gpu : Nat) : List PendingOp → List Nat × List PendingOp
  | [] => ([], [])
  | op :: rest =>
    if op.gpu_tick ≤ gpu then
      let dr := drainOps gpu rest
      (op.callback :: dr.1, dr.2)
    else ([], op :: rest)

/-- Outcome of an operation that may submit or block: a new scheduler state,
process termination on device loss (carrying the checkpoint data logged), or
blocking forever on a tick that will never be signaled. -/
inductive SchedOutcome where
  | ok (s : Scheduler)
  | terminated (logged : List (Nat × Nat))
  | blocked
  deriving DecidableEq, Repr

/-- The successful path of `Scheduler::SubmitExecution`: allocate the next
tick, end any open pass, end recording, add the timeline signal, submit,
refresh the tick authority, commit+begin a fresh buffer, then drain the
ready prefix of the pending-operation queue. -/
def Scheduler.submitOk (s : Scheduler) (info : SubmitInfo) (dev : DevBehavior) : Scheduler :=
  let nt := s.sem.NextTick
  let info2 := info.AddSignal timelineHandle nt.1
  let s2 := ({ s with sem := nt.2 }).EndRendering
  let s3 : Scheduler :=
    { s2 with
      cmdbuf_open := false
      trace := s2.trace ++ [Event.endBuffer, Event.submit (mkVkSubmitInfo info2) info2.fence]
      sem := s2.sem.Refresh dev.refresh_val }
  let s4 := s3.AllocateWorkerCommandBuffers
  let dr := drainOps s4.sem.gpu_tick s4.pending_ops
  { s4 with pending_ops := dr.2, executed := s4.executed ++ dr.1 }

/-- `Scheduler::SubmitExecution`: on `vk::DeviceLostError` from
`queue.submit`, log the NV checkpoint data when the capability exists and
terminate (`UNREACHABLE_MSG`); otherwise complete the submission. -/
def Scheduler.SubmitExecution (s : Scheduler) (inst : Instance) (info : SubmitInfo)
    (dev : DevBehavior) : SchedOutcome :=
  if dev.lost = true then
    .terminated (if inst.has_nv_checkpoints then inst.checkpoints else [])
  else .ok (s.submitOk info dev)

/-- `Scheduler::Flush`: submit without waiting. -/
def Scheduler.Flush (s : Scheduler) (inst : Instance) (info : SubmitInfo)
    (dev : DevBehavior) : SchedOutcome :=
  s.SubmitExecution inst info dev

/-- Delegation to Tick Authority `wait(tick)` from a scheduler state. -/
def Scheduler.semDelegate (s : Scheduler) (tick : Nat) : SchedOutcome :=
  match s.sem.Wait tick with
  | some m => .ok { s with sem := m }
  | none => .blocked

/-- `Scheduler::Wait(tick)`: when `tick >= master_semaphore.CurrentTick()`
first force a submission by flushing an empty `SubmitInfo`, then delegate to
the tick authority's wait. -/
def Scheduler.Wait (s : Scheduler) (inst : Instance) (tick : Nat)
    (dev : DevBehavior) : SchedOutcome :=
  if s.sem.current_tick ≤ tick then
    match s.Flush inst emptySubmitInfo dev with
    | .ok s1 => s1.semDelegate tick
    | r => r
  else s.semDelegate tick

/-- `Scheduler::Finish`: capture the presubmit tick, submit an empty-info
submission, then wait for that tick. `dev` governs the submission, `devw`
any submission the inner wait might force. -/
def Scheduler.Finish (s : Scheduler) (inst : Instance) (dev devw : DevBehavior) :
    SchedOutcome :=
  let presubmit_tick := s.CurrentTick
  match s.SubmitExecution inst emptySubmitInfo dev with
  | .ok s1 => s1.Wait inst presubmit_tick devw
  | r => r

/-- `Scheduler::DeferOperation` (header, modelled from the spec): enqueue a
deferred operation at the back of the FIFO queue. -/
def Scheduler.DeferOperation (s : Scheduler) (op : PendingOp) : Scheduler :=
  { s with pending_ops := s.pending_ops ++ [op] }

/-- The default-constructed `RenderState` the scheduler starts with. -/
def RenderState.initial : RenderState :=
  { width := 0, height := 0, num_color_attachments := 0, color_attachments := []
    color_images := [], has_depth := false, has_stencil := false
    depth_attachment := ⟨0⟩, depth_image := 0 }

/-- The scheduler right after construction: no pass open, tick authority at
its initial values, and `AllocateWorkerCommandBuffers` already run by the
constructor. -/
def Scheduler.init : Scheduler :=
  Scheduler.AllocateWorkerCommandBuffers
    { is_rendering := false, render_state := RenderState.initial
      sem := ⟨1, 0⟩, pending_ops := [], cmdbuf_open := false
      overflowed := false, trace := [], executed := [] }

/-- One caller-visible step of the scheduler. Submitting steps carry the
physical constraint that the timeline value observed by `Refresh` never
exceeds the highest signal value submitted so far (the tick that submission
assigned, `s.sem.current_tick`). -/
inductive Step (inst : Instance) : Scheduler → Scheduler → Prop where
  | begin_rendering (s : Scheduler) (rs : RenderState) :
      Step inst s (s.BeginRendering rs)
  | end_rendering (s : Scheduler) : Step inst s s.EndRendering
  | defer (s : Scheduler) (op : PendingOp) : Step inst s (s.DeferOperation op)
  | flush (s s' : Scheduler) (info : SubmitInfo) (dev : DevBehavior)
      (hdev : dev.refresh_val ≤ s.sem.current_tick)
      (h : s.Flush inst info dev = .ok s') : Step inst s s'
  | wait (s s' : Scheduler) (tick : Nat) (dev : DevBehavior)
      (hdev : dev.refresh_val ≤ s.sem.current_tick)
      (h : s.Wait inst tick dev = .ok s') : Step inst s s'
  | finish (s s' : Scheduler) (dev devw : DevBehavior)
      (hdev : dev.refresh_val ≤ s.sem.current_tick)
      (hdevw : devw.refresh_val ≤ s.sem.current_tick)
      (h : s.Finish inst dev devw = .ok s') : Step inst s s'

/-- States reachable from the freshly constructed scheduler. -/
inductive Reachable (inst : Instance) : Scheduler → Prop where
  | init : Reachable inst Scheduler.init
  | step {s s' : Scheduler} : Reachable inst s → Step inst s s' → Reachable inst s'

/-- Submissions appearing in a trace, in order. -/
def submitsOf (t : List Event) : List VkSubmitInfo :=
  t.filterMap (fun e =>
    match e with
    | Event.submit si _ => some si
    | _ => none)

/-- Batched pipeline-barrier calls appearing in a trace, in order, each as
its barrier list. -/
def batchesOf (t : List Event) : List (List ImageMemoryBarrier) :=
  t.filterMap (fun e =>
    match e with
    | Event.barrierBatch bs _ _ _ => some bs
    | _ => none)

/-- Number of pass-begin commands in a trace. -/
def beginsOf (t : List Event) : Nat :=
  t.countP (fun e =>
    match e with
    | Event.beginPass _ => true
    | _ => false)

/-- A sample render state: two color attachments plus a depth attachment. -/
def rsSample : RenderState :=
  { width := 640, height := 480, num_color_attachments := 2
    color_attachments := [⟨2⟩, ⟨2⟩], color_images := [11, 12]
    has_depth := true, has_stencil := false, depth_attachment := ⟨5⟩, depth_image := 13 }

/-- A sample render state whose barrier count exceeds the capacity 9. -/
def rsBig : RenderState := { rsSample with num_color_attachments := 9 }

/-- A sample scheduler mid-run: a pass open over `rsSample`, ticks 1..3
assigned, ticks up to 2 complete, three deferred operations queued. -/
def schedSample : Scheduler :=
  { is_rendering := true, render_state := rsSample, sem := ⟨4, 2⟩
    pending_ops := [⟨1, 100⟩, ⟨2, 101⟩, ⟨5, 102⟩], cmdbuf_open := true
    overflowed := false, trace := [], executed := [] }

/-- The sample scheduler with no pass open. -/
def schedIdle : Scheduler := { schedSample with is_rendering := false }

/-- A sample instance with the NV checkpoint capability and one checkpoint. -/
def instSample : Instance := ⟨false, true, [(7, 42)]⟩

/-- Device behaviour: submission succeeds, timeline signaled up to 3. -/
def devOk : DevBehavior := ⟨false, 3⟩

/-- Device behaviour: the device is lost during submission. -/
def devLost : DevBehavior := ⟨true, 0⟩

/-- A sample caller `SubmitInfo` carrying two wait semaphore+value pairs. -/
def infoSample : SubmitInfo := ⟨[21, 22], [9, 10], [], [], none⟩

/-! Helper lemmas about the embedded operations. -/

@[simp]
theorem AddSignal_wait_semas (info : SubmitInfo) (a v : Nat) :
    (info.AddSignal a v).wait_semas = info.wait_semas := rfl

@[simp]
theorem AddSignal_wait_ticks (info : SubmitInfo) (a v : Nat) :
    (info.AddSignal a v).wait_ticks = info.wait_ticks := rfl

@[simp]
theorem AddSignal_signal_ticks (info : SubmitInfo) (a v : Nat) :
    (info.AddSignal a v).signal_ticks = info.signal_ticks ++ [v] := rfl

@[simp]
theorem AddSignal_fence (info : SubmitInfo) (a v : Nat) :
    (info.AddSignal a v).fence = info.fence := rfl

@[simp]
theorem endRendering_sem (s : Scheduler) : s.EndRendering.sem = s.sem := by
  unfold Scheduler.EndRendering; split <;> rfl

@[simp]
theorem endRendering_pending (s : Scheduler) : s.EndRendering.pending_ops = s.pending_ops := by
  unfold Scheduler.EndRendering; split <;> rfl

@[simp]
theorem endRendering_executed (s : Scheduler) : s.EndRendering.executed = s.executed := by
  unfold Scheduler.EndRendering; split <;> rfl

@[simp]
theorem endRendering_cmdbuf (s : Scheduler) : s.EndRendering.cmdbuf_open = s.cmdbuf_open := by
  unfold Scheduler.EndRendering; split <;> rfl

@[simp]
theorem endRendering_is_rendering (s : Scheduler) : s.EndRendering.is_rendering = false := by
  unfold Scheduler.EndRendering
  split
  · assumption
  · rfl

@[simp]
theorem endRendering_render_state (s : Scheduler) :
    s.EndRendering.render_state = s.render_state := by
  unfold Scheduler.EndRendering; split <;> rfl

theorem endRendering_trace (s : Scheduler) :
    s.EndRendering.trace =
      s.trace ++ (if s.is_rendering = true then endDelta s.render_state else []) := by
  unfold Scheduler.EndRendering
  cases h : s.is_rendering <;> simp [h]

theorem endRendering_overflowed (s : Scheduler) :
    s.EndRendering.overflowed =
      (s.overflowed || (if s.is_rendering = true then (buildBarriers s.render_state).2
        else false)) := by
  unfold Scheduler.EndRendering
  cases h : s.is_rendering <;> simp [h]

@[simp]
theorem submitsOf_nil : submitsOf [] = [] := rfl

@[simp]
theorem batchesOf_nil : batchesOf [] = [] := rfl

@[simp]
theorem beginsOf_nil : beginsOf [] = 0 := rfl

@[simp]
theorem submitsOf_append (t1 t2 : List Event) :
    submitsOf (t1 ++ t2) = submitsOf t1 ++ submitsOf t2 := by
  simp [submitsOf]

@[simp]
theorem batchesOf_append (t1 t2 : List Event) :
    batchesOf (t1 ++ t2) = batchesOf t1 ++ batchesOf t2 := by
  simp [batchesOf]

@[simp]
theorem beginsOf_append (t1 t2 : List Event) :
    beginsOf (t1 ++ t2) = beginsOf t1 + beginsOf t2 := by
  simp [beginsOf, List.countP_append]

@[simp]
theorem submitsOf_endDelta (rs : RenderState) : submitsOf (endDelta rs) = [] := by
  unfold endDelta submitsOf
  split <;> simp

@[simp]
theorem beginsOf_endDelta (rs : RenderState) : beginsOf (endDelta rs) = 0 := by
  unfold endDelta beginsOf
  split <;> simp

theorem batchesOf_endDelta (rs : RenderState) :
    batchesOf (endDelta rs) =
      if (buildBarriers rs).1.isEmpty then [] else [(buildBarriers rs).1] := by
  unfold endDelta batchesOf
  split <;> simp

@[simp]
theorem submitOk_sem (s : Scheduler) (info : SubmitInfo) (dev : DevBehavior) :
    (s.submitOk info dev).sem =
      ⟨s.sem.current_tick + 1, max s.sem.gpu_tick dev.refresh_val⟩ := by
  unfold Scheduler.submitOk Scheduler.AllocateWorkerCommandBuffers
  simp [MasterSemaphore.NextTick, MasterSemaphore.Refresh]

@[simp]
theorem submitOk_is_rendering (s : Scheduler) (info : SubmitInfo) (dev : DevBehavior) :
    (s.submitOk info dev).is_rendering = false := by
  unfold Scheduler.submitOk Scheduler.AllocateWorkerCommandBuffers
  simp

@[simp]
theorem submitOk_cmdbuf (s : Scheduler) (info : SubmitInfo) (dev : DevBehavior) :
    (s.submitOk info dev).cmdbuf_open = true := by
  unfold Scheduler.submitOk Scheduler.AllocateWorkerCommandBuffers
  simp

theorem submitOk_trace (s : Scheduler) (info : SubmitInfo) (dev : DevBehavior) :
    (s.submitOk info dev).trace =
      s.trace ++ (if s.is_rendering = true then endDelta s.render_state else []) ++
        [Event.endBuffer,
         Event.submit (mkVkSubmitInfo (info.AddSignal timelineHandle s.sem.current_tick))
           info.fence,
         Event.beginBuffer] := by
  unfold Scheduler.submitOk Scheduler.AllocateWorkerCommandBuffers
  simp [MasterSemaphore.NextTick, endRendering_trace]

theorem submitOk_pending (s : Scheduler) (info : SubmitInfo) (dev : DevBehavior) :
    (s.submitOk info dev).pending_ops =
      (drainOps (max s.sem.gpu_tick dev.refresh_val) s.pending_ops).2 := by
  unfold Scheduler.submitOk Scheduler.AllocateWorkerCommandBuffers
  simp [MasterSemaphore.NextTick, MasterSemaphore.Refresh]

theorem submitOk_executed (s : Scheduler) (info : SubmitInfo) (dev : DevBehavior) :
    (s.submitOk info dev).executed =
      s.executed ++ (drainOps (max s.sem.gpu_tick dev.refresh_val) s.pending_ops).1 := by
  unfold Scheduler.submitOk Scheduler.AllocateWorkerCommandBuffers
  simp [MasterSemaphore.NextTick, MasterSemaphore.Refresh]

@[simp]
theorem submitsOf_submitTriple (si : VkSubmitInfo) (f : Option Nat) :
    submitsOf [Event.endBuffer, Event.submit si f, Event.beginBuffer] = [si] := rfl

@[simp]
theorem batchesOf_submitTriple (si : VkSubmitInfo) (f : Option Nat) :
    batchesOf [Event.endBuffer, Event.submit si f, Event.beginBuffer] = [] := rfl

@[simp]
theorem beginsOf_submitTriple (si : VkSubmitInfo) (f : Option Nat) :
    beginsOf [Event.endBuffer, Event.submit si f, Event.beginBuffer] = 0 := rfl

theorem submitOk_submitsOf (s : Scheduler) (info : SubmitInfo) (dev : DevBehavior) :
    submitsOf (s.submitOk info dev).trace =
      submitsOf s.trace ++
        [mkVkSubmitInfo (info.AddSignal timelineHandle s.sem.current_tick)] := by
  rw [submitOk_trace]
  cases h : s.is_rendering <;> simp [h]

theorem submitExecution_ok_iff (s : Scheduler) (inst : Instance) (info : SubmitInfo)
    (dev : DevBehavior) (s' : Scheduler) :
    s.SubmitExecution inst info dev = .ok s' ↔
      dev.lost = false ∧ s' = s.submitOk info dev := by
  unfold Scheduler.SubmitExecution
  cases h : dev.lost <;> simp [h]
  exact eq_comm

theorem submitExecution_not_lost (s : Scheduler) (inst : Instance) (info : SubmitInfo)
    (dev : DevBehavior) (h : dev.lost = false) :
    s.SubmitExecution inst info dev = .ok (s.submitOk info dev) := by
  unfold Scheduler.SubmitExecution
  simp [h]

theorem semWait_of_lt (m : MasterSemaphore) (tick : Nat) (h : tick < m.current_tick) :
    ∃ m', m.Wait tick = some m' ∧ tick ≤ m'.gpu_tick ∧ m.gpu_tick ≤ m'.gpu_tick ∧
      m'.current_tick = m.current_tick := by
  unfold MasterSemaphore.Wait
  by_cases hg : tick ≤ m.gpu_tick
  · exact ⟨m, by simp [hg], hg, le_refl _, rfl⟩
  · exact ⟨{ m with gpu_tick := tick }, by simp [hg, h], le_refl _, le_of_not_le hg, rfl⟩

theorem semWait_gpu_le (m m' : MasterSemaphore) (tick : Nat) (h : m.Wait tick = some m') :
    m.gpu_tick ≤ m'.gpu_tick ∧ m'.current_tick = m.current_tick ∧ tick ≤ m'.gpu_tick ∨
      m' = m := by
  unfold MasterSemaphore.Wait at h
  by_cases hg : tick ≤ m.gpu_tick
  · simp [hg] at h
    exact Or.inr h.symm
  · by_cases hc : tick < m.current_tick
    · simp [hg, hc] at h
      exact Or.inl ⟨by rw [← h]; exact le_of_not_le hg, by rw [← h], by rw [← h]⟩
    · simp [hg, hc] at h

theorem drainOps_fst (gpu : Nat) (ops : List PendingOp) :
    (drainOps gpu ops).1 =
      (ops.takeWhile (fun op => decide (op.gpu_tick ≤ gpu))).map PendingOp.callback := by
  induction ops with
  | nil => simp [drainOps]
  | cons op rest ih =>
    by_cases h : op.gpu_tick ≤ gpu <;> simp [drainOps, List.takeWhile_cons, h, ih]

theorem drainOps_snd (gpu : Nat) (ops : List PendingOp) :
    (drainOps gpu ops).2 = ops.dropWhile (fun op => decide (op.gpu_tick ≤ gpu)) := by
  induction ops with
  | nil => simp [drainOps]
  | cons op rest ih =>
    by_cases h : op.gpu_tick ≤ gpu <;> simp [drainOps, List.dropWhile_cons, h, ih]

theorem beginRendering_noop (s : Scheduler) (st : RenderState)
    (h1 : s.is_rendering = true) (h2 : s.render_state = st) :
    s.BeginRendering st = s := by
  unfold Scheduler.BeginRendering
  rw [if_pos ⟨h1, h2⟩]

@[simp]
theorem beginRendering_is_rendering (s : Scheduler) (st : RenderState) :
    (s.BeginRendering st).is_rendering = true := by
  unfold Scheduler.BeginRendering
  split
  · next h => exact h.1
  · rfl

@[simp]
theorem beginRendering_render_state (s : Scheduler) (st : RenderState) :
    (s.BeginRendering st).render_state = st := by
  unfold Scheduler.BeginRendering
  split
  · next h => exact h.2
  · rfl

@[simp]
theorem beginRendering_sem (s : Scheduler) (st : RenderState) :
    (s.BeginRendering st).sem = s.sem := by
  unfold Scheduler.BeginRendering
  split
  · rfl
  · simp

@[simp]
theorem beginRendering_pending (s : Scheduler) (st : RenderState) :
    (s.BeginRendering st).pending_ops = s.pending_ops := by
  unfold Scheduler.BeginRendering
  split
  · rfl
  · simp

theorem beginRendering_idem (s : Scheduler) (st : RenderState) :
    (s.BeginRendering st).BeginRendering st = s.BeginRendering st :=
  beginRendering_noop _ _ (beginRendering_is_rendering s st)
    (beginRendering_render_state s st)

theorem beginRendering_trace (s : Scheduler) (st : RenderState)
    (h : ¬(s.is_rendering = true ∧ s.render_state = st)) :
    (s.BeginRendering st).trace = s.EndRendering.trace ++ [Event.beginPass st] := by
  unfold Scheduler.BeginRendering
  rw [if_neg h]

theorem foldl_pushBarrier_fits (bs : List ImageMemoryBarrier) :
    ∀ l : List ImageMemoryBarrier, l.length + bs.length ≤ 9 →
      bs.foldl pushBarrier (l, false) = (l ++ bs, false) := by
  induction bs with
  | nil => intro l _; simp
  | cons b rest ih =>
    intro l h
    have hl : l.length < 9 := by simp at h; omega
    simp only [List.foldl_cons, pushBarrier, hl, if_pos]
    rw [ih (l ++ [b]) (by simp at h ⊢; omega)]
    simp

theorem foldl_pushBarrier_flag (bs : List ImageMemoryBarrier) :
    ∀ acc : List ImageMemoryBarrier × Bool, acc.2 = true →
      (bs.foldl pushBarrier acc).2 = true := by
  induction bs with
  | nil => intro acc h; simpa using h
  | cons b rest ih =>
    intro acc h
    simp only [List.foldl_cons]
    apply ih
    unfold pushBarrier
    split <;> simp [h]

theorem foldl_pushBarrier_ovf (bs : List ImageMemoryBarrier) :
    ∀ (l : List ImageMemoryBarrier) (f : Bool), 9 < l.length + bs.length →
      l.length ≤ 9 → (bs.foldl pushBarrier (l, f)).2 = true := by
  induction bs with
  | nil => intro l f h h9; simp at h; omega
  | cons b rest ih =>
    intro l f h h9
    by_cases hl : l.length < 9
    · simp only [List.foldl_cons, pushBarrier, hl, if_pos]
      exact ih (l ++ [b]) f (by simp at h ⊢; omega) (by simp; omega)
    · simp only [List.foldl_cons, pushBarrier, hl, if_neg, if_false]
      exact foldl_pushBarrier_flag rest (l, true) rfl

theorem barrierSeq_length (rs : RenderState) :
    (barrierSeq rs).length = rs.num_color_attachments + depthBit rs := by
  cases hd : rs.has_depth <;> simp [barrierSeq, depthBit, hd]

theorem buildBarriers_fits (rs : RenderState)
    (h : rs.num_color_attachments + depthBit rs ≤ 9) :
    buildBarriers rs = (barrierSeq rs, false) := by
  unfold buildBarriers
  have := foldl_pushBarrier_fits (barrierSeq rs) []
    (by rw [barrierSeq_length]; simpa using h)
  simpa using this

theorem buildBarriers_ovf (rs : RenderState)
    (h : 9 < rs.num_color_attachments + depthBit rs) :
    (buildBarriers rs).2 = true := by
  unfold buildBarriers
  exact foldl_pushBarrier_ovf (barrierSeq rs) [] false
    (by rw [barrierSeq_length]; simpa using h) (by simp)

@[simp]
theorem defer_sem (s : Scheduler) (op : PendingOp) : (s.DeferOperation op).sem = s.sem := rfl

theorem semWait_some_facts (m m' : MasterSemaphore) (tick : Nat) (h : m.Wait tick = some m') :
    m'.current_tick = m.current_tick ∧ m.gpu_tick ≤ m'.gpu_tick ∧
      (m'.gpu_tick = m.gpu_tick ∨ (m'.gpu_tick = tick ∧ tick < m.current_tick)) := by
  unfold MasterSemaphore.Wait at h
  by_cases hg : tick ≤ m.gpu_tick
  · simp only [hg, if_pos] at h
    obtain rfl : m = m' := by injection h
    exact ⟨rfl, le_refl _, Or.inl rfl⟩
  · by_cases hc : tick < m.current_tick
    · simp only [hg, if_neg, if_false, hc, if_pos] at h
      obtain rfl : ({ m with gpu_tick := tick } : MasterSemaphore) = m' := by injection h
      exact ⟨rfl, le_of_not_le hg, Or.inr ⟨rfl, hc⟩⟩
    · simp [hg, hc] at h

theorem semDelegate_ok_iff (s : Scheduler) (tick : Nat) (s' : Scheduler) :
    s.semDelegate tick = .ok s' ↔
      ∃ m', s.sem.Wait tick = some m' ∧ s' = { s with sem := m' } := by
  unfold Scheduler.semDelegate
  cases h : s.sem.Wait tick <;> simp [h]
  exact eq_comm

theorem semDelegate_of_lt (s : Scheduler) (tick : Nat) (h : tick < s.sem.current_tick) :
    ∃ s', s.semDelegate tick = .ok s' ∧ tick ≤ s'.sem.gpu_tick ∧
      s.sem.gpu_tick ≤ s'.sem.gpu_tick ∧ s'.sem.current_tick = s.sem.current_tick ∧
      s' = { s with sem := s'.sem } := by
  obtain ⟨m', hm, ht, hg, hc⟩ := semWait_of_lt s.sem tick h
  refine ⟨{ s with sem := m' }, ?_, ht, hg, hc, rfl⟩
  rw [semDelegate_ok_iff]
  exact ⟨m', hm, rfl⟩

theorem wait_ok_shape (s : Scheduler) (inst : Instance) (tick : Nat) (dev : DevBehavior)
    (s' : Scheduler) (h : s.Wait inst tick dev = .ok s') :
    (s.sem.current_tick ≤ tick ∧ dev.lost = false ∧
      ∃ m', (s.submitOk emptySubmitInfo dev).sem.Wait tick = some m' ∧
        s' = { s.submitOk emptySubmitInfo dev with sem := m' }) ∨
    (tick < s.sem.current_tick ∧ ∃ m', s.sem.Wait tick = some m' ∧
      s' = { s with sem := m' }) := by
  unfold Scheduler.Wait at h
  by_cases hc : s.sem.current_tick ≤ tick
  · left
    rw [if_pos hc] at h
    refine ⟨hc, ?_⟩
    unfold Scheduler.Flush Scheduler.SubmitExecution at h
    cases hl : dev.lost with
    | true => rw [hl] at h; simp at h
    | false =>
      rw [hl] at h; simp only [Bool.false_eq_true, if_false] at h
      exact ⟨rfl, (semDelegate_ok_iff _ _ _).mp h⟩
  · right
    rw [if_neg hc] at h
    exact ⟨lt_of_not_le hc, (semDelegate_ok_iff _ _ _).mp h⟩

theorem wait_ok_bounds (s : Scheduler) (inst : Instance) (tick : Nat) (dev : DevBehavior)
    (s' : Scheduler) (hdev : dev.refresh_val ≤ s.sem.current_tick)
    (hinv : s.sem.gpu_tick < s.sem.current_tick)
    (h : s.Wait inst tick dev = .ok s') :
    s'.sem.gpu_tick < s'.sem.current_tick ∧ s.sem.gpu_tick ≤ s'.sem.gpu_tick ∧
      s.sem.current_tick ≤ s'.sem.current_tick := by
  rcases wait_ok_shape s inst tick dev s' h with ⟨hc, _, m', hm, rfl⟩ | ⟨hc, m', hm, rfl⟩
  · obtain ⟨hcur, hge, hcase⟩ := semWait_some_facts _ m' tick hm
    simp only [submitOk_sem] at hcur hge hcase
    have hmax : max s.sem.gpu_tick dev.refresh_val < s.sem.current_tick + 1 :=
      max_lt (Nat.lt_succ_of_lt hinv) (Nat.lt_succ_of_le hdev)
    constructor
    · show m'.gpu_tick < _
      rw [hcur]
      rcases hcase with he | ⟨he, ht⟩
      · rw [he]; exact hmax
      · rw [he]; exact ht
    · constructor
      · exact le_trans (le_max_left _ _) hge
      · rw [hcur]; exact Nat.le_succ _
  · obtain ⟨hcur, hge, hcase⟩ := semWait_some_facts _ m' tick hm
    refine ⟨?_, hge, le_of_eq hcur.symm⟩
    show m'.gpu_tick < m'.current_tick
    rw [hcur]
    rcases hcase with he | ⟨he, ht⟩
    · rw [he]; exact hinv
    · rw [he]; exact ht

theorem finish_ok_shape (s : Scheduler) (inst : Instance) (dev devw : DevBehavior)
    (h : dev.lost = false) :
    ∃ s', s.Finish inst dev devw = .ok s' ∧
      s.sem.current_tick ≤ s'.sem.gpu_tick ∧
      s'.sem.current_tick = s.sem.current_tick + 1 ∧
      max s.sem.gpu_tick dev.refresh_val ≤ s'.sem.gpu_tick ∧
      s' = { s.submitOk emptySubmitInfo dev with sem := s'.sem } := by
  have hlt : s.sem.current_tick < (s.submitOk emptySubmitInfo dev).sem.current_tick := by
    simp only [submitOk_sem]
    exact Nat.lt_succ_self _
  obtain ⟨s', hdel, ht, hg, hc, hshape⟩ :=
    semDelegate_of_lt (s.submitOk emptySubmitInfo dev) s.sem.current_tick hlt
  refine ⟨s', ?_, ht, ?_, ?_, hshape⟩
  · unfold Scheduler.Finish
    rw [submitExecution_not_lost _ _ _ _ h]
    show (s.submitOk emptySubmitInfo dev).Wait inst s.sem.current_tick devw = .ok s'
    unfold Scheduler.Wait
    rw [if_neg (not_le_of_lt hlt)]
    exact hdel
  · rw [hc, submitOk_sem]
  · calc max s.sem.gpu_tick dev.refresh_val =
          (s.submitOk emptySubmitInfo dev).sem.gpu_tick := by rw [submitOk_sem]
      _ ≤ s'.sem.gpu_tick := hg

theorem step_sem_bounds (inst : Instance) (s s' : Scheduler) (hstep : Step inst s s')
    (hinv : s.sem.gpu_tick < s.sem.current_tick) :
    s'.sem.gpu_tick < s'.sem.current_tick ∧ s.sem.gpu_tick ≤ s'.sem.gpu_tick ∧
      s.sem.current_tick ≤ s'.sem.current_tick := by
  cases hstep with
  | begin_rendering rs => exact ⟨by simpa using hinv, by simp, by simp⟩
  | end_rendering => exact ⟨by simpa using hinv, by simp, by simp⟩
  | defer op => exact ⟨by simpa using hinv, by simp, by simp⟩
  | flush s' info dev hdev h =>
    unfold Scheduler.Flush at h
    rw [submitExecution_ok_iff] at h
    obtain ⟨_, rfl⟩ := h
    simp only [submitOk_sem]
    exact ⟨max_lt (Nat.lt_succ_of_lt hinv) (Nat.lt_succ_of_le hdev),
      le_max_left _ _, Nat.le_succ _⟩
  | wait s' tick dev hdev h => exact wait_ok_bounds s inst tick dev s' hdev hinv h
  | finish s' dev devw hdev hdevw h =>
    cases hl : dev.lost with
    | true =>
      exfalso
      unfold Scheduler.Finish Scheduler.SubmitExecution at h
      rw [hl] at h
      simp at h
    | false =>
      unfold Scheduler.Finish at h
      rw [submitExecution_not_lost _ _ _ _ hl] at h
      have h' : (s.submitOk emptySubmitInfo dev).Wait inst s.sem.current_tick devw = .ok s' := h
      have hinv1 : (s.submitOk emptySubmitInfo dev).sem.gpu_tick <
          (s.submitOk emptySubmitInfo dev).sem.current_tick := by
        simp only [submitOk_sem]
        exact max_lt (Nat.lt_succ_of_lt hinv) (Nat.lt_succ_of_le hdev)
      have hdevw' : devw.refresh_val ≤ (s.submitOk emptySubmitInfo dev).sem.current_tick := by
        simp only [submitOk_sem]
        exact le_trans hdevw (Nat.le_succ _)
      obtain ⟨h1, h2, h3⟩ := wait_ok_bounds _ inst _ devw s' hdevw' hinv1 h'
      refine ⟨h1, le_trans ?_ h2, le_trans ?_ h3⟩
      · simp only [submitOk_sem]
        exact le_max_left _ _
      · simp only [submitOk_sem]
        exact Nat.le_succ _

theorem reachable_sem_inv (inst : Instance) (s : Scheduler) (h : Reachable inst s) :
    s.sem.gpu_tick < s.sem.current_tick := by
  induction h with
  | init => decide
  | step hr hs ih => exact (step_sem_bounds _ _ _ hs ih).1

/-! The claims. -/

/-- Claim C5: for a state with N color attachments on which a pass is open
(and which fits the barrier capacity, cf. the static vector of capacity 9),
`EndRendering` emits exactly N+1 image memory barriers in one batched
pipeline-barrier call when the state has a depth attachment, and exactly N
barriers when it has only color attachments (one batched call when N > 0,
and no call at all when there is nothing to transition). -/
theorem endRendering_barrier_count (s : Scheduler) (hr : s.is_rendering = true)
    (hcap : s.render_state.num_color_attachments + depthBit s.render_state ≤ 9) :
    (s.render_state.has_depth = true →
      (barrierSeq s.render_state).length = s.render_state.num_color_attachments + 1 ∧
      batchesOf s.EndRendering.trace = batchesOf s.trace ++ [barrierSeq s.render_state]) ∧
    (s.render_state.has_depth = false →
      (barrierSeq s.render_state).length = s.render_state.num_color_attachments ∧
      (0 < s.render_state.num_color_attachments →
        batchesOf s.EndRendering.trace = batchesOf s.trace ++ [barrierSeq s.render_state]) ∧
      (s.render_state.num_color_attachments = 0 →
        batchesOf s.EndRendering.trace = batchesOf s.trace)) := by
  have hlen := barrierSeq_length s.render_state
  have htr : batchesOf s.EndRendering.trace =
      batchesOf s.trace ++ batchesOf (endDelta s.render_state) := by
    rw [endRendering_trace, if_pos hr, batchesOf_append]
  have hdelta := batchesOf_endDelta s.render_state
  rw [buildBarriers_fits s.render_state hcap] at hdelta
  constructor
  · intro hd
    have hlen1 : (barrierSeq s.render_state).length =
        s.render_state.num_color_attachments + 1 := by
      rw [hlen]; simp [depthBit, hd]
    refine ⟨hlen1, ?_⟩
    have hne : (barrierSeq s.render_state).isEmpty = false := by
      rw [List.isEmpty_eq_false_iff_exists_mem]
      rcases List.exists_mem_of_length_pos (by rw [hlen1]; omega) with ⟨x, hx⟩
      exact ⟨x, hx⟩
    rw [htr, hdelta, hne]
    simp
  · intro hd
    have hlen0 : (barrierSeq s.render_state).length =
        s.render_state.num_color_attachments := by
      rw [hlen]; simp [depthBit, hd]
    refine ⟨hlen0, ?_, ?_⟩
    · intro hpos
      have hne : (barrierSeq s.render_state).isEmpty = false := by
        rw [List.isEmpty_eq_false_iff_exists_mem]
        rcases List.exists_mem_of_length_pos (by rw [hlen0]; omega) with ⟨x, hx⟩
        exact ⟨x, hx⟩
      rw [htr, hdelta, hne]
      simp
    · intro h0
      have hnil : barrierSeq s.render_state = [] := by
        simp [barrierSeq, h0, hd]
      rw [htr, hdelta, hnil]
      simp

/-- Claim C10: `EndRendering` accumulates barriers in an inline vector of
fixed capacity 9: when `num_color_attachments + (1 if depth else 0) <= 9`
the capacity-overflow branch is unreachable (the flag stays false and
`EndRendering` never poisons the state); past that bound the overflow
branch is taken. -/
theorem barrier_capacity_bound (rs : RenderState) :
    (rs.num_color_attachments + depthBit rs ≤ 9 → (buildBarriers rs).2 = false) ∧
    (9 < rs.num_color_attachments + depthBit rs → (buildBarriers rs).2 = true) ∧
    (∀ s : Scheduler, s.render_state = rs →
      rs.num_color_attachments + depthBit rs ≤ 9 →
      s.EndRendering.overflowed = s.overflowed) := by
  refine ⟨fun h => by rw [buildBarriers_fits rs h], buildBarriers_ovf rs, ?_⟩
  intro s hrs hcap
  rw [endRendering_overflowed]
  cases hri : s.is_rendering
  · simp
  · simp [hrs, buildBarriers_fits rs hcap]

/-- Claim C6: `BeginRendering` over a state equal to the currently open one
is a no-op (state unchanged), so repeated `BeginRendering` with an unchanged
state collapses to a single call, each call adds at most one pass-begin, and
a call that does change the state adds exactly one. -/
theorem beginRendering_batching (s : Scheduler) (st : RenderState) :
    (s.is_rendering = true → s.render_state = st → s.BeginRendering st = s) ∧
    (∀ n : Nat, (fun t : Scheduler => t.BeginRendering st)^[n + 1] s =
      s.BeginRendering st) ∧
    beginsOf (s.BeginRendering st).trace ≤ beginsOf s.trace + 1 ∧
    (¬(s.is_rendering = true ∧ s.render_state = st) →
      beginsOf (s.BeginRendering st).trace = beginsOf s.trace + 1) := by
  have hcount : ∀ _ : ¬(s.is_rendering = true ∧ s.render_state = st),
      beginsOf (s.BeginRendering st).trace = beginsOf s.trace + 1 := by
    intro h
    rw [beginRendering_trace s st h, beginsOf_append, endRendering_trace,
      beginsOf_append]
    have h1 : beginsOf [Event.beginPass st] = 1 := rfl
    rw [h1]
    cases hri : s.is_rendering <;> simp [hri]
  refine ⟨beginRendering_noop s st, ?_, ?_, hcount⟩
  · intro n
    induction n with
    | zero => rfl
    | succ n ih =>
      rw [Function.iterate_succ_apply', ih]
      exact beginRendering_idem s st
  · by_cases h : s.is_rendering = true ∧ s.render_state = st
    · rw [beginRendering_noop s st h.1 h.2]
      exact Nat.le_succ _
    · rw [hcount h]

/-- Claim C7: when the device reports loss during submission, the scheduler
logs the hardware diagnostic checkpoints when the capability exists and
terminates the process; it never returns a scheduler state (no retry, no
recoverable error value). -/
theorem device_loss_terminal (s : Scheduler) (inst : Instance) (info : SubmitInfo)
    (dev : DevBehavior) (h : dev.lost = true) :
    s.SubmitExecution inst info dev =
      .terminated (if inst.has_nv_checkpoints then inst.checkpoints else []) ∧
    ∀ s' : Scheduler, s.SubmitExecution inst info dev ≠ .ok s' := by
  unfold Scheduler.SubmitExecution
  rw [if_pos h]
  exact ⟨rfl, fun s' => by simp⟩

/-- Claim C9: every submission passes the fixed two-element
wait-destination-stage-mask array [all-commands, color-attachment-output] to
the queue while the wait-semaphore count is the caller's wait list length;
the pairing is well-formed exactly when the `SubmitInfo` carries at most two
wait semaphores. -/
theorem wait_stage_mask_shape :
    (∀ info : SubmitInfo,
      (mkVkSubmitInfo info).waitDstStageMask =
        [STAGE_ALL_COMMANDS, STAGE_COLOR_ATTACHMENT_OUTPUT] ∧
      (mkVkSubmitInfo info).waitSemaphoreCount = info.wait_semas.length ∧
      (wellFormedWaitStages (mkVkSubmitInfo info) ↔ info.wait_semas.length ≤ 2)) ∧
    (∀ (s : Scheduler) (inst : Instance) (info : SubmitInfo) (dev : DevBehavior),
      dev.lost = false →
      ∃ s', s.SubmitExecution inst info dev = .ok s' ∧
        submitsOf s'.trace = submitsOf s.trace ++
          [mkVkSubmitInfo (info.AddSignal timelineHandle s.sem.current_tick)] ∧
        (info.AddSignal timelineHandle s.sem.current_tick).wait_semas =
          info.wait_semas) := by
  constructor
  · intro info
    refine ⟨rfl, rfl, ?_⟩
    unfold wellFormedWaitStages mkVkSubmitInfo wait_stage_masks
    simp
  · intro s inst info dev h
    exact ⟨_, submitExecution_not_lost s inst info dev h,
      submitOk_submitsOf s info dev, rfl⟩

/-- Claim C1: after `Finish` returns, the completed tick is at least the
tick that call assigned: the single submission `Finish` issued signals
exactly the presubmit tick it captured, and on return `completed()` has
reached it. -/
theorem finish_blocks_to_completion (s : Scheduler) (inst : Instance)
    (dev devw : DevBehavior) (h : dev.lost = false) :
    ∃ s', s.Finish inst dev devw = .ok s' ∧
      s.sem.current_tick ≤ s'.sem.gpu_tick ∧
      submitsOf s'.trace = submitsOf s.trace ++
        [mkVkSubmitInfo (emptySubmitInfo.AddSignal timelineHandle s.sem.current_tick)] ∧
      (mkVkSubmitInfo (emptySubmitInfo.AddSignal timelineHandle
        s.sem.current_tick)).signalSemaphoreValues = [s.sem.current_tick] := by
  obtain ⟨s', hfin, ht, _, _, hshape⟩ := finish_ok_shape s inst dev devw h
  refine ⟨s', hfin, ht, ?_, rfl⟩
  rw [hshape]
  exact submitOk_submitsOf s emptySubmitInfo dev

/-- Claim C2: `Wait(tick)` with `tick >= peekNext()` first forces a
submission by flushing an empty `SubmitInfo` and then delegates to the tick
authority's wait; in particular `Wait(peekNext())` terminates with an `ok`
state whose completed tick is at least the requested tick. -/
theorem wait_forces_flush_no_deadlock (s : Scheduler) (inst : Instance) (tick : Nat)
    (dev : DevBehavior) (hge : s.sem.current_tick ≤ tick) (h : dev.lost = false) :
    (∃ s1, s.Flush inst emptySubmitInfo dev = .ok s1 ∧
      s.Wait inst tick dev = s1.semDelegate tick ∧
      submitsOf s1.trace = submitsOf s.trace ++
        [mkVkSubmitInfo (emptySubmitInfo.AddSignal timelineHandle s.sem.current_tick)]) ∧
    (tick = s.sem.current_tick →
      ∃ s', s.Wait inst tick dev = .ok s' ∧ tick ≤ s'.sem.gpu_tick) := by
  have hflush : s.Flush inst emptySubmitInfo dev = .ok (s.submitOk emptySubmitInfo dev) :=
    submitExecution_not_lost s inst emptySubmitInfo dev h
  have hwait : s.Wait inst tick dev = (s.submitOk emptySubmitInfo dev).semDelegate tick := by
    unfold Scheduler.Wait
    rw [if_pos hge, hflush]
  refine ⟨⟨_, hflush, hwait, submitOk_submitsOf _ _ _⟩, ?_⟩
  intro he
  subst he
  have hlt : s.sem.current_tick < (s.submitOk emptySubmitInfo dev).sem.current_tick := by
    rw [submitOk_sem]
    exact Nat.lt_succ_self _
  obtain ⟨s', hdel, ht, _, _, _⟩ := semDelegate_of_lt _ s.sem.current_tick hlt
  exact ⟨s', by rw [hwait]; exact hdel, ht⟩

/-- Claim C3: the drain step after a submission executes exactly the
contiguous prefix of the pending-operation queue whose target tick is at
most the refreshed completed tick, in enqueue order, and leaves the rest of
the queue untouched and in order. -/
theorem drain_fifo_ready_only :
    (∀ (gpu : Nat) (ops : List PendingOp),
      (drainOps gpu ops).1 =
        (ops.takeWhile (fun op => decide (op.gpu_tick ≤ gpu))).map PendingOp.callback ∧
      (drainOps gpu ops).2 = ops.dropWhile (fun op => decide (op.gpu_tick ≤ gpu)) ∧
      ops.takeWhile (fun op => decide (op.gpu_tick ≤ gpu)) ++
        ops.dropWhile (fun op => decide (op.gpu_tick ≤ gpu)) = ops ∧
      ∀ op ∈ ops.takeWhile (fun op => decide (op.gpu_tick ≤ gpu)), op.gpu_tick ≤ gpu) ∧
    (∀ (s : Scheduler) (inst : Instance) (info : SubmitInfo) (dev : DevBehavior),
      dev.lost = false →
      ∃ s', s.SubmitExecution inst info dev = .ok s' ∧
        s'.sem.gpu_tick = max s.sem.gpu_tick dev.refresh_val ∧
        s'.executed = s.executed ++
          (s.pending_ops.takeWhile
            (fun op => decide (op.gpu_tick ≤ s'.sem.gpu_tick))).map PendingOp.callback ∧
        s'.pending_ops = s.pending_ops.dropWhile
          (fun op => decide (op.gpu_tick ≤ s'.sem.gpu_tick))) := by
  constructor
  · intro gpu ops
    refine ⟨drainOps_fst gpu ops, drainOps_snd gpu ops,
      List.takeWhile_append_dropWhile (fun op => decide (op.gpu_tick ≤ gpu)) ops, ?_⟩
    intro op hop
    simpa using List.mem_takeWhile_imp hop
  · intro s inst info dev h
    refine ⟨_, submitExecution_not_lost s inst info dev h, by rw [submitOk_sem], ?_, ?_⟩
    · rw [submitOk_executed, drainOps_fst, submitOk_sem]
    · rw [submitOk_pending, drainOps_snd, submitOk_sem]

/-- Claim C4: every submission assigns exactly the current next-assignable
tick and advances it by one (so successive submissions get consecutive,
strictly increasing ticks); no other operation touches the tick authority;
at every reachable state the completed tick is strictly below the
next-assignable tick (hence at most the highest assigned tick); and along
any step both counters are monotonically non-decreasing. -/
theorem tick_monotonicity :
    (∀ (s : Scheduler) (inst : Instance) (info : SubmitInfo) (dev : DevBehavior),
      dev.lost = false →
      ∃ s' si, s.SubmitExecution inst info dev = .ok s' ∧
        submitsOf s'.trace = submitsOf s.trace ++ [si] ∧
        si.signalSemaphoreValues = info.signal_ticks ++ [s.sem.current_tick] ∧
        s'.sem.current_tick = s.sem.current_tick + 1) ∧
    (∀ (s : Scheduler) (rs : RenderState), (s.BeginRendering rs).sem = s.sem) ∧
    (∀ s : Scheduler, s.EndRendering.sem = s.sem) ∧
    (∀ (s : Scheduler) (op : PendingOp), (s.DeferOperation op).sem = s.sem) ∧
    (∀ (inst : Instance) (s : Scheduler), Reachable inst s →
      s.sem.gpu_tick < s.sem.current_tick) ∧
    (∀ (inst : Instance) (s s' : Scheduler), Step inst s s' →
      s.sem.gpu_tick < s.sem.current_tick →
      s.sem.gpu_tick ≤ s'.sem.gpu_tick ∧ s.sem.current_tick ≤ s'.sem.current_tick) := by
  refine ⟨?_, beginRendering_sem, endRendering_sem, defer_sem, reachable_sem_inv, ?_⟩
  · intro s inst info dev h
    exact ⟨_, _, submitExecution_not_lost s inst info dev h,
      submitOk_submitsOf s info dev, rfl, by rw [submitOk_sem]⟩
  · intro inst s s' hstep hinv
    exact (step_sem_bounds inst s s' hstep hinv).2

/-- Claim C8: after construction and after every successful submission
(direct, finish-issued, or wait-forced) the scheduler is Idle-Recording: no
render pass is open and the freshly committed command buffer has
begin-recording already issued (for a direct submission, the last recorded
command is the new buffer's begin). -/
theorem idle_recording_after_submit :
    (Scheduler.init.is_rendering = false ∧ Scheduler.init.cmdbuf_open = true ∧
      Scheduler.init.trace.getLast? = some Event.beginBuffer) ∧
    (∀ (s : Scheduler) (inst : Instance) (info : SubmitInfo) (dev : DevBehavior)
      (s' : Scheduler), s.SubmitExecution inst info dev = .ok s' →
      s'.is_rendering = false ∧ s'.cmdbuf_open = true ∧
      ∃ t, s'.trace = t ++ [Event.beginBuffer]) ∧
    (∀ (s : Scheduler) (inst : Instance) (dev devw : DevBehavior) (s' : Scheduler),
      s.Finish inst dev devw = .ok s' →
      s'.is_rendering = false ∧ s'.cmdbuf_open = true) ∧
    (∀ (s : Scheduler) (inst : Instance) (tick : Nat) (dev : DevBehavior)
      (s' : Scheduler), s.sem.current_tick ≤ tick → s.Wait inst tick dev = .ok s' →
      s'.is_rendering = false ∧ s'.cmdbuf_open = true) := by
  refine ⟨⟨rfl, rfl, rfl⟩, ?_, ?_, ?_⟩
  · intro s inst info dev s' h
    rw [submitExecution_ok_iff] at h
    obtain ⟨_, rfl⟩ := h
    refine ⟨submitOk_is_rendering s info dev, submitOk_cmdbuf s info dev, ?_⟩
    refine ⟨s.trace ++ (if s.is_rendering = true then endDelta s.render_state else []) ++
      [Event.endBuffer,
       Event.submit (mkVkSubmitInfo (info.AddSignal timelineHandle s.sem.current_tick))
         info.fence], ?_⟩
    rw [submitOk_trace]
    simp
  · intro s inst dev devw s' h
    cases hl : dev.lost with
    | true =>
      exfalso
      unfold Scheduler.Finish Scheduler.SubmitExecution at h
      rw [hl] at h
      simp at h
    | false =>
      obtain ⟨s'', hfin, _, _, _, hshape⟩ := finish_ok_shape s inst dev devw hl
      rw [hfin] at h
      obtain rfl : s'' = s' := by injection h
      rw [hshape]
      exact ⟨submitOk_is_rendering s emptySubmitInfo dev,
        submitOk_cmdbuf s emptySubmitInfo dev⟩
  · intro s inst tick dev s' hge h
    rcases wait_ok_shape s inst tick dev s' h with ⟨_, _, m', _, rfl⟩ | ⟨hlt, _⟩
    · exact ⟨submitOk_is_rendering s emptySubmitInfo dev,
        submitOk_cmdbuf s emptySubmitInfo dev⟩
    · omega

/-! Witnesses: the claim theorems evaluated at concrete inputs. -/

/-- Witness for C1 at the sample scheduler. -/
theorem finish_blocks_to_completion_wit :
    ∃ s', schedSample.Finish instSample devOk devOk = .ok s' ∧
      schedSample.sem.current_tick ≤ s'.sem.gpu_tick ∧
      submitsOf s'.trace = submitsOf schedSample.trace ++
        [mkVkSubmitInfo (emptySubmitInfo.AddSignal timelineHandle
          schedSample.sem.current_tick)] ∧
      (mkVkSubmitInfo (emptySubmitInfo.AddSignal timelineHandle
        schedSample.sem.current_tick)).signalSemaphoreValues =
        [schedSample.sem.current_tick] :=
  finish_blocks_to_completion schedSample instSample devOk devOk rfl

/-- Witness for C2: waiting on the sample scheduler's own next tick. -/
theorem wait_forces_flush_no_deadlock_wit :
    (∃ s1, schedSample.Flush instSample emptySubmitInfo devOk = .ok s1 ∧
      schedSample.Wait instSample 4 devOk = s1.semDelegate 4 ∧
      submitsOf s1.trace = submitsOf schedSample.trace ++
        [mkVkSubmitInfo (emptySubmitInfo.AddSignal timelineHandle
          schedSample.sem.current_tick)]) ∧
    (4 = schedSample.sem.current_tick →
      ∃ s', schedSample.Wait instSample 4 devOk = .ok s' ∧ 4 ≤ s'.sem.gpu_tick) :=
  wait_forces_flush_no_deadlock schedSample instSample 4 devOk (by decide) rfl

/-- Witness for C3 at the sample queue (ticks 1, 2 ready at completed 2). -/
theorem drain_fifo_ready_only_wit :
    (drainOps 2 schedSample.pending_ops).1 =
      (schedSample.pending_ops.takeWhile (fun op => decide (op.gpu_tick ≤ 2))).map
        PendingOp.callback ∧
    ∃ s', schedSample.SubmitExecution instSample emptySubmitInfo devOk = .ok s' ∧
      s'.sem.gpu_tick = max schedSample.sem.gpu_tick devOk.refresh_val ∧
      s'.executed = schedSample.executed ++
        (schedSample.pending_ops.takeWhile
          (fun op => decide (op.gpu_tick ≤ s'.sem.gpu_tick))).map PendingOp.callback ∧
      s'.pending_ops = schedSample.pending_ops.dropWhile
        (fun op => decide (op.gpu_tick ≤ s'.sem.gpu_tick)) :=
  ⟨(drain_fifo_ready_only.1 2 schedSample.pending_ops).1,
   drain_fifo_ready_only.2 schedSample instSample emptySubmitInfo devOk rfl⟩

/-- Witness for C4: a concrete submission, a non-submitting step, the
invariant at the initial state, and monotonicity along a concrete step. -/
theorem tick_monotonicity_wit :
    (∃ s' si, schedSample.SubmitExecution instSample emptySubmitInfo devOk = .ok s' ∧
      submitsOf s'.trace = submitsOf schedSample.trace ++ [si] ∧
      si.signalSemaphoreValues = emptySubmitInfo.signal_ticks ++
        [schedSample.sem.current_tick] ∧
      s'.sem.current_tick = schedSample.sem.current_tick + 1) ∧
    (schedSample.BeginRendering rsSample).sem = schedSample.sem ∧
    Scheduler.init.sem.gpu_tick < Scheduler.init.sem.current_tick ∧
    (schedSample.sem.gpu_tick ≤ (schedSample.BeginRendering rsSample).sem.gpu_tick ∧
      schedSample.sem.current_tick ≤
        (schedSample.BeginRendering rsSample).sem.current_tick) :=
  ⟨tick_monotonicity.1 schedSample instSample emptySubmitInfo devOk rfl,
   tick_monotonicity.2.1 schedSample rsSample,
   tick_monotonicity.2.2.2.2.1 instSample Scheduler.init Reachable.init,
   tick_monotonicity.2.2.2.2.2 instSample schedSample
     (schedSample.BeginRendering rsSample)
     (Step.begin_rendering schedSample rsSample) (by decide)⟩

/-- Witness for C5 at the sample state (2 color attachments + depth). -/
theorem endRendering_barrier_count_wit :
    (schedSample.render_state.has_depth = true →
      (barrierSeq schedSample.render_state).length =
        schedSample.render_state.num_color_attachments + 1 ∧
      batchesOf schedSample.EndRendering.trace = batchesOf schedSample.trace ++
        [barrierSeq schedSample.render_state]) ∧
    (schedSample.render_state.has_depth = false →
      (barrierSeq schedSample.render_state).length =
        schedSample.render_state.num_color_attachments ∧
      (0 < schedSample.render_state.num_color_attachments →
        batchesOf schedSample.EndRendering.trace = batchesOf schedSample.trace ++
          [barrierSeq schedSample.render_state]) ∧
      (schedSample.render_state.num_color_attachments = 0 →
        batchesOf schedSample.EndRendering.trace = batchesOf schedSample.trace)) :=
  endRendering_barrier_count schedSample rfl (by decide)

/-- Witness for C6: the no-op case at the sample state, and the batching of
three consecutive calls from the idle state. -/
theorem beginRendering_batching_wit :
    schedSample.BeginRendering rsSample = schedSample ∧
    (fun t : Scheduler => t.BeginRendering rsSample)^[3] schedIdle =
      schedIdle.BeginRendering rsSample ∧
    beginsOf (schedIdle.BeginRendering rsSample).trace = beginsOf schedIdle.trace + 1 :=
  ⟨(beginRendering_batching schedSample rsSample).1 rfl rfl,
   (beginRendering_batching schedIdle rsSample).2.1 2,
   (beginRendering_batching schedIdle rsSample).2.2.2 (by decide)⟩

/-- Witness for C7: a lost device at the sample scheduler. -/
theorem device_loss_terminal_wit :
    schedSample.SubmitExecution instSample emptySubmitInfo devLost =
      .terminated (if instSample.has_nv_checkpoints then instSample.checkpoints
        else []) ∧
    ∀ s', schedSample.SubmitExecution instSample emptySubmitInfo devLost ≠ .ok s' :=
  device_loss_terminal schedSample instSample emptySubmitInfo devLost rfl

/-- Witness for C8: the initial state, and concrete submission, finish and
forced-wait outcomes at the sample scheduler. -/
theorem idle_recording_after_submit_wit :
    (Scheduler.init.is_rendering = false ∧ Scheduler.init.cmdbuf_open = true ∧
      Scheduler.init.trace.getLast? = some Event.beginBuffer) ∧
    ((schedSample.submitOk emptySubmitInfo devOk).is_rendering = false ∧
      (schedSample.submitOk emptySubmitInfo devOk).cmdbuf_open = true ∧
      ∃ t, (schedSample.submitOk emptySubmitInfo devOk).trace =
        t ++ [Event.beginBuffer]) ∧
    ({ schedSample.submitOk emptySubmitInfo devOk with
        sem := (⟨5, 4⟩ : MasterSemaphore) }.is_rendering = false ∧
      { schedSample.submitOk emptySubmitInfo devOk with
        sem := (⟨5, 4⟩ : MasterSemaphore) }.cmdbuf_open = true) :=
  ⟨idle_recording_after_submit.1,
   idle_recording_after_submit.2.1 schedSample instSample emptySubmitInfo devOk
     (schedSample.submitOk emptySubmitInfo devOk) rfl,
   idle_recording_after_submit.2.2.2 schedSample instSample 4 devOk
     { schedSample.submitOk emptySubmitInfo devOk with
       sem := (⟨5, 4⟩ : MasterSemaphore) } (by decide) (by rfl)⟩

/-- Witness for C9 at a `SubmitInfo` with two wait semaphores. -/
theorem wait_stage_mask_shape_wit :
    ((mkVkSubmitInfo infoSample).waitDstStageMask =
      [STAGE_ALL_COMMANDS, STAGE_COLOR_ATTACHMENT_OUTPUT] ∧
     (mkVkSubmitInfo infoSample).waitSemaphoreCount = infoSample.wait_semas.length ∧
     (wellFormedWaitStages (mkVkSubmitInfo infoSample) ↔
       infoSample.wait_semas.length ≤ 2)) ∧
    ∃ s', schedSample.SubmitExecution instSample infoSample devOk = .ok s' ∧
      submitsOf s'.trace = submitsOf schedSample.trace ++
        [mkVkSubmitInfo (infoSample.AddSignal timelineHandle
          schedSample.sem.current_tick)] ∧
      (infoSample.AddSignal timelineHandle schedSample.sem.current_tick).wait_semas =
        infoSample.wait_semas :=
  ⟨wait_stage_mask_shape.1 infoSample,
   wait_stage_mask_shape.2 schedSample instSample infoSample devOk rfl⟩

/-- Witness for C10: the sample state fits the capacity, the 10-barrier
state overflows, and `EndRendering` on the sample scheduler stays clean. -/
theorem barrier_capacity_bound_wit :
    (buildBarriers rsSample).2 = false ∧
    (buildBarriers rsBig).2 = true ∧
    schedSample.EndRendering.overflowed = schedSample.overflowed :=
  ⟨(barrier_capacity_bound rsSample).1 (by decide),
   (barrier_capacity_bound rsBig).2.1 (by decide),
   (barrier_capacity_bound rsSample).2.2 schedSample rfl (by decide)⟩

end Vulkan
